import Mathlib

/-!
Shallow embedding of `src/app.py` (Arxiv Multi-View Reviewer, a Streamlit app).

The app has three parts:
* `ArxivFetcher.search_papers` — queries the arxiv provider (sorted by
  submitted date), converts each result into a paper dictionary, returns `[]`
  on any provider exception; the whole function is memoized by
  `st.cache_data(ttl=3600)` keyed on `(query, max_results)` (`_self` is
  excluded from the cache key by the leading underscore).
* `GeminiProcessor.generate_review` — picks a persona prompt from a dict,
  builds a `GenerationConfig` with temperature `0.0 if persona == "expert"
  else 0.7`, performs one request, and converts request exceptions into an
  `"Error generation review: ..."` string.
* `main` — the Streamlit page: halts with a warning when the API key is
  empty, otherwise on the button press searches once and renders, per paper,
  the title, the author/date caption, a collapsible abstract, and the two
  persona reviews.

External collaborators (the arxiv client and the Gemini service) are modelled
as oracle functions supplied as parameters; the Streamlit calls performed by
a run of the script are modelled as a trace of `UIEvent`s.
-/

namespace ArxivApp

/-- A timestamp at second precision, as the provider's `result.published`
datetime.  Ordering is lexicographic on the six fields. -/
structure Datetime where
  year : Nat
  month : Nat
  day : Nat
  hour : Nat
  minute : Nat
  second : Nat
  deriving DecidableEq, Repr

/-- A day-precision date, the result of truncating a `Datetime` to day
granularity (what `strftime("%Y-%m-%d")` exposes). -/
structure Date where
  year : Nat
  month : Nat
  day : Nat
  deriving DecidableEq, Repr

/-- Chronological order on day-precision dates (lexicographic). -/
def Date.Le (a b : Date) : Prop :=
  a.year < b.year ∨ (a.year = b.year ∧
    (a.month < b.month ∨ (a.month = b.month ∧ a.day ≤ b.day)))

instance (a b : Date) : Decidable (Date.Le a b) :=
  inferInstanceAs (Decidable (a.year < b.year ∨ (a.year = b.year ∧
    (a.month < b.month ∨ (a.month = b.month ∧ a.day ≤ b.day)))))

/-- Chronological order on second-precision datetimes (lexicographic). -/
def Datetime.Le (a b : Datetime) : Prop :=
  a.year < b.year ∨ (a.year = b.year ∧
    (a.month < b.month ∨ (a.month = b.month ∧
      (a.day < b.day ∨ (a.day = b.day ∧
        (a.hour < b.hour ∨ (a.hour = b.hour ∧
          (a.minute < b.minute ∨ (a.minute = b.minute ∧
            a.second ≤ b.second)))))))))

instance (a b : Datetime) : Decidable (Datetime.Le a b) :=
  inferInstanceAs (Decidable (a.year < b.year ∨ (a.year = b.year ∧
    (a.month < b.month ∨ (a.month = b.month ∧
      (a.day < b.day ∨ (a.day = b.day ∧
        (a.hour < b.hour ∨ (a.hour = b.hour ∧
          (a.minute < b.minute ∨ (a.minute = b.minute ∧
            a.second ≤ b.second)))))))))))

/-- Truncation of a datetime to day granularity. -/
def Datetime.dayOf (d : Datetime) : Date :=
  ⟨d.year, d.month, d.day⟩

/-- Truncating to day granularity is monotone for the chronological orders. -/
theorem Datetime.Le.dayOf_le {a b : Datetime} (h : Datetime.Le a b) :
    Date.Le a.dayOf b.dayOf := by
  obtain ⟨y1, mo1, d1, h1, mi1, s1⟩ := a
  obtain ⟨y2, mo2, d2, h2, mi2, s2⟩ := b
  simp only [Datetime.Le, Datetime.dayOf, Date.Le] at *
  omega

/-- Zero padding as performed by `strftime` format fields (`%Y`, `%m`, `%d`). -/
def padZero (w : Nat) (n : Nat) : String :=
  let s := toString n
  String.mk (List.replicate (w - s.length) '0') ++ s

/-- ISO-8601 rendering of a day-precision date, `YYYY-MM-DD`. -/
def renderDate (d : Date) : String :=
  padZero 4 d.year ++ "-" ++ padZero 2 d.month ++ "-" ++ padZero 2 d.day

/-- `result.published.strftime("%Y-%m-%d")`: the publication datetime
formatted to day granularity in ISO-8601 form. -/
def strftimeYMD (d : Datetime) : String :=
  renderDate d.dayOf

/-- One author object of an arxiv result (`author.name`). -/
structure ArxivAuthor where
  name : String
  deriving DecidableEq, Repr

/-- One raw result yielded by the arxiv client's result iterator. -/
structure ArxivResult where
  title : String
  summary : String
  entry_id : String
  published : Datetime
  authors : List ArxivAuthor
  deriving DecidableEq, Repr

/-- `arxiv.SortCriterion`. -/
inductive SortCriterion where
  | Relevance
  | LastUpdatedDate
  | SubmittedDate
  deriving DecidableEq, Repr

/-- The `arxiv.Search(query=..., max_results=..., sort_by=...)` request object
built by `search_papers` (lines 29-33 of `app.py`). -/
structure SearchSpec where
  query : String
  max_results : Nat
  sort_by : SortCriterion
  deriving DecidableEq, Repr

/-- The search request `search_papers` constructs for a `(query, max_results)`
pair: sorting is requested from the provider via `SortCriterion.SubmittedDate`,
never recomputed locally. -/
def mkSearch (query : String) (max_results : Nat) : SearchSpec :=
  ⟨query, max_results, SortCriterion.SubmittedDate⟩

/-- What iterating `client.results(search)` produces: the results yielded
before the iteration finishes or raises, and—in the latter case—the message of
the raised exception. -/
structure ProviderResponse where
  ok : List ArxivResult
  err : Option String
  deriving DecidableEq, Repr

/-- The paper dictionary built from one arxiv result (lines 38-44). -/
structure PaperRecord where
  title : String
  summary : String
  url : String
  published : String
  authors : String
  deriving DecidableEq, Repr

/-- Conversion of one raw result into the paper dictionary appended to
`papers`: `url` is `entry_id`, `published` is the day-granularity ISO string,
`authors` is the comma-joined author-name list. -/
def toRecord (r : ArxivResult) : PaperRecord :=
  { title := r.title
    summary := r.summary
    url := r.entry_id
    published := strftimeYMD r.published
    authors := String.intercalate ", " (r.authors.map ArxivAuthor.name) }

/-- The Streamlit calls a run of the script performs, in order.  Input
widgets are modelled through `Env` (they only read values), so the trace
records output elements plus the two collaborator invocations. -/
inductive UIEvent where
  | setTitle (s : String)
  | markdown (s : String)
  | header (s : String)
  | divider
  | infoPanel (s : String)
  | warning (s : String)
  | errorMsg (s : String)
  | successMsg (s : String)
  | caption (s : String)
  | expander (label : String) (content : String)
  | searchInvoked (query : String) (max_results : Nat)
  | reviewInvoked (persona : String)
  deriving DecidableEq, Repr

/-- The body of `search_papers` (lines 29-49), without the `st.cache_data`
layer: build the search request, iterate the provider's results accumulating
paper dictionaries, and on any exception emit `st.error` and return `[]` —
discarding whatever was accumulated.  Returns the emitted UI events and the
returned list. -/
def search_papers_body (provider : SearchSpec → ProviderResponse)
    (query : String) (max_results : Nat) : List UIEvent × List PaperRecord :=
  let search := mkSearch query max_results
  let resp := provider search
  match resp.err with
  | some e => ([UIEvent.errorMsg ("Arxiv API Error: " ++ e)], [])
  | none => ([], resp.ok.map toRecord)

/-- The `st.cache_data` key: the argument tuple `(query, max_results)`
(`_self` is excluded by its leading underscore). -/
abbrev CacheKey := String × Nat

/-- One entry of the `st.cache_data` memo table: key, store time (seconds),
and the cached return value. -/
structure CacheEntry where
  key : CacheKey
  storedAt : Nat
  value : List PaperRecord
  deriving DecidableEq, Repr

/-- Reading the memo table: the entry for the key, if any, is returned only
while it is younger than `ttl` seconds. -/
def cacheLookup (c : List CacheEntry) (k : CacheKey) (now ttl : Nat) :
    Option (List PaperRecord) :=
  match c with
  | [] => none
  | e :: rest =>
      if e.key = k then (if now < e.storedAt + ttl then some e.value else none)
      else cacheLookup rest k now ttl

/-- The outcome of a call to the memoized `search_papers`: the returned
papers, the UI events emitted by the body (none on a cache hit), the memo
table afterwards, and whether the provider was consulted. -/
structure FetchResult where
  papers : List PaperRecord
  events : List UIEvent
  cache : List CacheEntry
  providerCalled : Bool
  deriving Repr

/-- `ArxivFetcher.search_papers` with its `@st.cache_data(ttl=3600)`
decorator (lines 24-49): a fresh `(query, max_results)` pair runs the body
and stores the result for 3600 seconds; a pair seen within the window is
answered from the memo table without consulting the provider. -/
def search_papers (provider : SearchSpec → ProviderResponse)
    (cache : List CacheEntry) (now : Nat) (query : String) (max_results : Nat) :
    FetchResult :=
  match cacheLookup cache (query, max_results) now 3600 with
  | some v => ⟨v, [], cache, false⟩
  | none =>
      let r := search_papers_body provider query max_results
      ⟨r.2, r.1, ⟨(query, max_results), now, r.2⟩ :: cache, true⟩

/-- The model name set by `GeminiProcessor.__init__`. -/
def model_name : String := "gemini-1.5-flash"

/-- The `"expert"` prompt template (triple-quoted string, lines 69-76). -/
def expertPromptText : String :=
  "\n            あなたは熟練のデータサイエンティストです。以下の論文アブストラクトを読み、技術的な専門家の視点で分析してください。\n            出力形式:\n            - **技術的アプローチ**: 手法やアルゴリズムの核心\n            - **新規性**: 既存研究との違い\n            - **課題**: 考えられる懸念点\n            (Temperature: 0.0 - 事実に忠実)\n            "

/-- The `"beginner"` prompt template (triple-quoted string, lines 77-84). -/
def beginnerPromptText : String :=
  "\n            あなたは好奇心旺盛なテックブロガーです。以下の論文アブストラクトを読み、AI初心者やビジネスマンに向けてわかりやすく解説してください。\n            出力形式:\n            - **ひとことで言うと**: キャッチーなタイトル\n            - **何がすごいの？**: 比喩を使ったわかりやすい解説\n            - **未来はどうなる？**: この技術が社会実装された時のワクワクする未来\n            (Temperature: 0.7 - 創造的)\n            "

/-- Lookup in the `prompts` dict of `generate_review`: its only keys are
`"expert"` and `"beginner"`; any other key raises `KeyError` (modelled as
`none`). -/
def prompts (persona : String) : Option String :=
  if persona = "expert" then some expertPromptText
  else if persona = "beginner" then some beginnerPromptText
  else none

/-- One request to the generative-text service: the full prompt string and the
`GenerationConfig` temperature it is sent with. -/
structure GenCall where
  prompt : String
  temperature : ℚ
  deriving DecidableEq, Repr

/-- The exception `generate_review` can propagate: the `KeyError` raised by
`prompts[persona]` for a persona that is not a dict key.  (Request exceptions
are caught inside the function and never propagate.) -/
inductive GenError where
  | keyError (key : String)
  deriving DecidableEq, Repr

/-- `GeminiProcessor.generate_review` (lines 61-102).  The generative-text
service is the oracle `svc`, answering one request with the produced text or
with the message of a raised exception.  Returns the list of service requests
made, and either the returned string or the uncaught `KeyError`.  The
temperature is `0.0 if persona == "expert" else 0.7` (line 90); the prompt
lookup `prompts[persona]` (line 93) happens before any request; a request
exception is converted to `"Error generation review: ..."` (line 102). -/
def generate_review (svc : GenCall → Except String String)
    (text persona : String) : List GenCall × Except GenError String :=
  let generation_config : ℚ := if persona = "expert" then 0 else 7/10
  match prompts persona with
  | none => ([], Except.error (GenError.keyError persona))
  | some p =>
      let full_prompt := p ++ "\n\nTarget Abstract:\n" ++ text
      let call : GenCall := ⟨full_prompt, generation_config⟩
      ([call],
        match svc call with
        | Except.ok t => Except.ok t
        | Except.error e => Except.ok ("Error generation review: " ++ e))

/-- The review string rendered by `main` for one paper and persona.  For the
personas `main` actually passes (`"expert"`, `"beginner"`) the `KeyError`
branch is unreachable (`generate_review_known_ok` below); an uncaught
exception would abort the script run. -/
def reviewText (svc : GenCall → Except String String)
    (text persona : String) : String :=
  match (generate_review svc text persona).2 with
  | Except.ok s => s
  | Except.error _ => "<uncaught KeyError>"

/-- `PAGE_TITLE` (line 9). -/
def PAGE_TITLE : String := "Arxiv Multi-View Reviewer 📚"

/-- The introduction markdown of `main` (lines 107-110). -/
def introMd : String :=
  "\n    **GMOインターンシップ応募用ポートフォリオ** 最新のArxiv論文を検索し、**「専門家視点」**と**「初心者視点」**の2つのAIエージェントが同時にレビューします。\n    データソースへのアクセスとLLMのハンドリング技術を実証するデモアプリです。\n    "

/-- The sidebar tip (line 122). -/
def tipMd : String := "💡 Tip: Try keywords like 'RAG', 'Time Series', 'Transformer'"

/-- The warning shown while the API key field is empty (line 126). -/
def apiKeyPrompt : String := "👈 サイドバーにGemini API Keyを入力してスタートしてください。"

/-- The warning shown when the search returns no papers (line 138). -/
def notFoundMsg : String := "論文が見つかりませんでした。キーワードを変えて試してください。"

/-- The success banner shown before analysis (line 141). -/
def foundMsg (n : Nat) : String :=
  toString n ++ " 件の論文が見つかりました。AI分析を開始します..."

/-- The page-level elements every run emits before the credential check:
title, introduction, and the sidebar (lines 106-122). -/
def headerEvents : List UIEvent :=
  [UIEvent.setTitle PAGE_TITLE,
   UIEvent.markdown introMd,
   UIEvent.header "⚙️ Settings",
   UIEvent.divider,
   UIEvent.header "🔎 Search Filter",
   UIEvent.infoPanel tipMd]

/-- The per-paper rendering block of `main` (lines 144-170): numbered title,
author/date caption, collapsible raw abstract, then the expert column
(`st.info`) and the beginner column (`st.success`), strictly in that order,
and a closing divider. -/
def renderPaper (svc : GenCall → Except String String) (i : Nat)
    (paper : PaperRecord) : List UIEvent :=
  [UIEvent.markdown ("### " ++ toString (i + 1) ++ ". " ++ paper.title),
   UIEvent.caption ("Authors: " ++ paper.authors ++ " | Published: " ++ paper.published),
   UIEvent.expander "Show Original Abstract" paper.summary,
   UIEvent.markdown "#### 👓 Expert View (Data Scientist)",
   UIEvent.reviewInvoked "expert",
   UIEvent.infoPanel (reviewText svc paper.summary "expert"),
   UIEvent.markdown "#### 💡 Beginner View (Web/Biz)",
   UIEvent.reviewInvoked "beginner",
   UIEvent.successMsg (reviewText svc paper.summary "beginner"),
   UIEvent.divider]

/-- The inputs of one run of the script: the widget values (API key, query,
slider, whether the button was pressed this run), the memo-table state and
clock, and the two external collaborators. -/
structure Env where
  api_key : String
  query : String
  max_results : Nat
  buttonPressed : Bool
  cache : List CacheEntry
  now : Nat
  provider : SearchSpec → ProviderResponse
  gen : GenCall → Except String String

/-- `main` (lines 105-170) as the trace of one script run: page header, then
the empty-credential gate, then — on the button press — one invocation of the
search client followed by either the not-found warning or the success banner
and the per-paper rendering blocks in order. -/
def main (env : Env) : List UIEvent :=
  headerEvents ++
  (if env.api_key = "" then [UIEvent.warning apiKeyPrompt]
   else if env.buttonPressed = false then []
   else
     let fr := search_papers env.provider env.cache env.now env.query env.max_results
     UIEvent.searchInvoked env.query env.max_results :: fr.events ++
       (if fr.papers = [] then [UIEvent.warning notFoundMsg]
        else UIEvent.successMsg (foundMsg fr.papers.length) ::
          fr.papers.enum.flatMap (fun ip => renderPaper env.gen ip.1 ip.2)))

/-! ### Lemmas about `generate_review` -/

/-- The requests issued by one call to `generate_review`: none when the
persona is not a prompt key (the `KeyError` precedes the request), exactly
one otherwise, carrying the persona's template and temperature. -/
theorem generate_review_calls (svc : GenCall → Except String String)
    (text persona : String) :
    (generate_review svc text persona).1 =
      match prompts persona with
      | none => []
      | some p => [⟨p ++ "\n\nTarget Abstract:\n" ++ text,
                    if persona = "expert" then (0 : ℚ) else 7/10⟩] := by
  unfold generate_review
  cases prompts persona <;> rfl

/-- Whenever the persona is a prompt key, `generate_review` returns `ok`,
whatever the service does: the request is wrapped in `try`. -/
theorem generate_review_known_ok (svc : GenCall → Except String String)
    (text persona p : String) (hp : prompts persona = some p) :
    ∃ s, (generate_review svc text persona).2 = Except.ok s := by
  simp only [generate_review, hp]
  rcases hsvc : svc ⟨p ++ "\n\nTarget Abstract:\n" ++ text,
      if persona = "expert" then (0 : ℚ) else 7/10⟩ with e | t
  · exact ⟨"Error generation review: " ++ e, rfl⟩
  · exact ⟨t, rfl⟩

/-- A concrete generative-text service that always answers. -/
def svcOk : GenCall → Except String String := fun _ => Except.ok "a generated review"

/-- A concrete generative-text service that always raises. -/
def svcErr : GenCall → Except String String := fun _ => Except.error "boom"

/-- C1: for every persona, the sampling temperature sent to the
generative-text service is a pure function of the persona — `0.0` for
`"expert"`, `0.7` for `"beginner"` — and `generate_review` never sends any
other temperature (for any other persona no request is sent at all). -/
theorem generate_review_temperature (svc : GenCall → Except String String)
    (text persona : String) (c : GenCall)
    (hc : c ∈ (generate_review svc text persona).1) :
    c.temperature = (if persona = "expert" then (0 : ℚ) else 7/10) ∧
    ((persona = "expert" ∧ c.temperature = 0) ∨
     (persona = "beginner" ∧ c.temperature = 7/10)) := by
  rw [generate_review_calls] at hc
  by_cases h1 : persona = "expert"
  · subst h1
    simp [prompts] at hc
    subst hc
    simp
  · by_cases h2 : persona = "beginner"
    · subst h2
      simp [prompts] at hc
      subst hc
      simp
    · simp [prompts, h1, h2] at hc

/-- Witness for C1 at persona `"expert"`. -/
theorem generate_review_temperature_witness :
    (⟨expertPromptText ++ "\n\nTarget Abstract:\n" ++ "some abstract", 0⟩ : GenCall).temperature
        = (if ("expert" : String) = "expert" then (0 : ℚ) else 7/10) ∧
    ((("expert" : String) = "expert" ∧
        (⟨expertPromptText ++ "\n\nTarget Abstract:\n" ++ "some abstract", 0⟩ : GenCall).temperature = 0) ∨
     (("expert" : String) = "beginner" ∧
        (⟨expertPromptText ++ "\n\nTarget Abstract:\n" ++ "some abstract", 0⟩ : GenCall).temperature = 7/10)) :=
  generate_review_temperature svcOk "some abstract" "expert"
    ⟨expertPromptText ++ "\n\nTarget Abstract:\n" ++ "some abstract", 0⟩
    (by rw [generate_review_calls]; simp [prompts])

/-- C3: if the generative-text request raises, `generate_review` returns
(rather than raises) the string `"Error generation review: "` followed by the
exception message: a non-empty string beginning with the fixed error marker,
delivered through the same channel as a successful review. -/
theorem generate_review_error_string (svc : GenCall → Except String String)
    (text persona p e : String) (hp : prompts persona = some p)
    (hsvc : svc ⟨p ++ "\n\nTarget Abstract:\n" ++ text,
                 if persona = "expert" then (0 : ℚ) else 7/10⟩ = Except.error e) :
    (generate_review svc text persona).2
        = Except.ok ("Error generation review: " ++ e) ∧
    0 < ("Error generation review: " ++ e).length ∧
    ∃ rest, "Error generation review: " ++ e = "Error generation review: " ++ rest := by
  refine ⟨?_, ?_, e, rfl⟩
  · simp only [generate_review, hp, hsvc]
  · rw [String.length_append]
    have h25 : ("Error generation review: " : String).length = 25 := rfl
    omega

/-- Witness for C3: a service raising `"boom"` on the expert prompt. -/
theorem generate_review_error_string_witness :
    (generate_review svcErr "some abstract" "expert").2
        = Except.ok ("Error generation review: " ++ "boom") ∧
    0 < (("Error generation review: " ++ "boom") : String).length ∧
    ∃ rest, "Error generation review: " ++ "boom" = "Error generation review: " ++ rest :=
  generate_review_error_string svcErr "some abstract" "expert" expertPromptText "boom"
    (by simp [prompts]) rfl

/-- C9: for a persona that is neither `"expert"` nor `"beginner"`,
`generate_review` raises the `KeyError` of the failed template lookup instead
of returning a string, and no request is ever sent: the `try` covers only the
request, not the persona template selection. -/
theorem generate_review_unknown_persona (svc : GenCall → Except String String)
    (text persona : String) (h1 : persona ≠ "expert") (h2 : persona ≠ "beginner") :
    (generate_review svc text persona).2 = Except.error (GenError.keyError persona) ∧
    (generate_review svc text persona).1 = [] := by
  have hp : prompts persona = none := by simp [prompts, h1, h2]
  constructor <;> simp [generate_review, hp]

/-- Witness for C9 at persona `"physicist"`. -/
theorem generate_review_unknown_persona_witness :
    (generate_review svcOk "some abstract" "physicist").2
        = Except.error (GenError.keyError "physicist") ∧
    (generate_review svcOk "some abstract" "physicist").1 = [] :=
  generate_review_unknown_persona svcOk "some abstract" "physicist"
    (by decide) (by decide)

/-! ### Lemmas about `search_papers` -/

/-- A concrete arxiv result, published 2024-05-02 10:00:00. -/
def sampleResult1 : ArxivResult :=
  ⟨"Paper One", "Abstract one", "http://arxiv.org/abs/2405.00001",
   ⟨2024, 5, 2, 10, 0, 0⟩, [⟨"Alice Smith"⟩, ⟨"Bob Jones"⟩]⟩

/-- A concrete arxiv result, published 2024-05-01 09:30:00. -/
def sampleResult2 : ArxivResult :=
  ⟨"Paper Two", "Abstract two", "http://arxiv.org/abs/2404.00002",
   ⟨2024, 5, 1, 9, 30, 0⟩, [⟨"Carol Diaz"⟩]⟩

/-- A concrete provider that yields two results (most recent first) and
finishes normally. -/
def providerOk : SearchSpec → ProviderResponse :=
  fun _ => ⟨[sampleResult1, sampleResult2], none⟩

/-- A concrete provider that yields two results and then raises. -/
def providerErr : SearchSpec → ProviderResponse :=
  fun _ => ⟨[sampleResult1, sampleResult2], some "Connection refused"⟩

/-- When the body runs without a provider error, the returned list is the
per-result conversion of everything the provider yielded. -/
theorem search_papers_body_ok (provider : SearchSpec → ProviderResponse)
    (query : String) (max_results : Nat)
    (hok : (provider (mkSearch query max_results)).err = none) :
    (search_papers_body provider query max_results)
      = ([], ((provider (mkSearch query max_results)).ok.map toRecord)) := by
  simp only [search_papers_body, hok]

/-- C2: if the provider raises during the search, `search_papers` returns the
empty list (it does not propagate the exception — the model's return type has
no error case and the body maps every exception to `[]`), after emitting the
user-visible `st.error` message. -/
theorem search_papers_provider_error (provider : SearchSpec → ProviderResponse)
    (cache : List CacheEntry) (now : Nat) (query : String) (max_results : Nat)
    (e : String)
    (hmiss : cacheLookup cache (query, max_results) now 3600 = none)
    (herr : (provider (mkSearch query max_results)).err = some e) :
    (search_papers provider cache now query max_results).papers = [] ∧
    (search_papers provider cache now query max_results).events
      = [UIEvent.errorMsg ("Arxiv API Error: " ++ e)] := by
  constructor <;> simp only [search_papers, search_papers_body, hmiss, herr]

/-- Witness for C2: an erroring provider against an empty memo table. -/
theorem search_papers_provider_error_witness :
    (search_papers providerErr [] 0 "LLM Agents" 5).papers = [] ∧
    (search_papers providerErr [] 0 "LLM Agents" 5).events
      = [UIEvent.errorMsg ("Arxiv API Error: " ++ "Connection refused")] :=
  search_papers_provider_error providerErr [] 0 "LLM Agents" 5
    "Connection refused" rfl rfl

/-- C10: if the provider raises partway through the iteration, every record
accumulated before the error is discarded and the body returns `[]` — the
caller never sees a partially built sequence. -/
theorem search_papers_discards_partial (provider : SearchSpec → ProviderResponse)
    (query : String) (max_results : Nat) (e : String)
    (herr : (provider (mkSearch query max_results)).err = some e) :
    (search_papers_body provider query max_results).2 = [] := by
  simp only [search_papers_body, herr]

/-- Witness for C10: the provider yields two results before raising, yet the
returned list is empty. -/
theorem search_papers_discards_partial_witness :
    (providerErr (mkSearch "LLM Agents" 5)).err = some "Connection refused" ∧
    (providerErr (mkSearch "LLM Agents" 5)).ok ≠ [] ∧
    (search_papers_body providerErr "LLM Agents" 5).2 = [] :=
  ⟨rfl, by decide,
   search_papers_discards_partial providerErr "LLM Agents" 5 "Connection refused" rfl⟩

/-- C4: a `(query, max_results)` pair not in the memo table consults the
provider and stores the result; a second call with the identical pair within
the 3600-second window is answered from the memo table — no new provider
request — with the identical list. -/
theorem search_papers_memoized (provider : SearchSpec → ProviderResponse)
    (cache : List CacheEntry) (now now' : Nat) (query : String) (max_results : Nat)
    (hmiss : cacheLookup cache (query, max_results) now 3600 = none)
    (h1 : now ≤ now') (h2 : now' < now + 3600) :
    (search_papers provider cache now query max_results).providerCalled = true ∧
    (search_papers provider
        (search_papers provider cache now query max_results).cache
        now' query max_results).providerCalled = false ∧
    (search_papers provider
        (search_papers provider cache now query max_results).cache
        now' query max_results).papers
      = (search_papers provider cache now query max_results).papers := by
  have hfst : search_papers provider cache now query max_results =
      ⟨(search_papers_body provider query max_results).2,
       (search_papers_body provider query max_results).1,
       ⟨(query, max_results), now, (search_papers_body provider query max_results).2⟩ :: cache,
       true⟩ := by
    simp only [search_papers, hmiss]
  have hlook : cacheLookup
      (⟨(query, max_results), now, (search_papers_body provider query max_results).2⟩ :: cache)
      (query, max_results) now' 3600
      = some (search_papers_body provider query max_results).2 := by
    simp [cacheLookup, h2]
  rw [hfst]
  have hsnd : search_papers provider
      (⟨(query, max_results), now, (search_papers_body provider query max_results).2⟩ :: cache)
      now' query max_results
      = ⟨(search_papers_body provider query max_results).2, [],
         ⟨(query, max_results), now, (search_papers_body provider query max_results).2⟩ :: cache,
         false⟩ := by
    simp only [search_papers, hlook]
  exact ⟨rfl, by rw [hsnd], by rw [hsnd]⟩

/-- Witness for C4: first call at time 0 on an empty memo table, second call
half an hour later. -/
theorem search_papers_memoized_witness :
    (search_papers providerOk [] 0 "LLM Agents" 5).providerCalled = true ∧
    (search_papers providerOk
        (search_papers providerOk [] 0 "LLM Agents" 5).cache
        1800 "LLM Agents" 5).providerCalled = false ∧
    (search_papers providerOk
        (search_papers providerOk [] 0 "LLM Agents" 5).cache
        1800 "LLM Agents" 5).papers
      = (search_papers providerOk [] 0 "LLM Agents" 5).papers :=
  search_papers_memoized providerOk [] 0 1800 "LLM Agents" 5
    rfl (by decide) (by decide)

/-- C5: the search request delegates the ordering to the provider
(`sort_by = SubmittedDate`, nothing is re-sorted locally), and whenever the
provider honours it — returning its results most-recent-first — the returned
records are non-increasing in publication date: their `published` fields
render, in order, a non-increasing sequence of day-precision dates. -/
theorem search_papers_sorted_delegated (provider : SearchSpec → ProviderResponse)
    (query : String) (max_results : Nat)
    (hok : (provider (mkSearch query max_results)).err = none)
    (hsorted : List.Chain' (fun a b => Datetime.Le b.published a.published)
        (provider (mkSearch query max_results)).ok) :
    (mkSearch query max_results).sort_by = SortCriterion.SubmittedDate ∧
    (search_papers_body provider query max_results).2.map PaperRecord.published
      = ((provider (mkSearch query max_results)).ok.map
          (fun r => r.published.dayOf)).map renderDate ∧
    List.Chain' (fun a b => Date.Le b a)
      ((provider (mkSearch query max_results)).ok.map (fun r => r.published.dayOf)) := by
  refine ⟨rfl, ?_, ?_⟩
  · rw [search_papers_body_ok provider query max_results hok]
    simp only [List.map_map]
    rfl
  · rw [List.chain'_map]
    exact hsorted.imp (fun a b h => Datetime.Le.dayOf_le h)

/-- Witness for C5: the two-result provider, most recent first. -/
theorem search_papers_sorted_delegated_witness :
    (mkSearch "LLM Agents" 5).sort_by = SortCriterion.SubmittedDate ∧
    (search_papers_body providerOk "LLM Agents" 5).2.map PaperRecord.published
      = ((providerOk (mkSearch "LLM Agents" 5)).ok.map
          (fun r => r.published.dayOf)).map renderDate ∧
    List.Chain' (fun a b => Date.Le b a)
      ((providerOk (mkSearch "LLM Agents" 5)).ok.map (fun r => r.published.dayOf)) :=
  search_papers_sorted_delegated providerOk "LLM Agents" 5 rfl
    (List.chain'_pair.mpr (by decide))

/-- C8: every record built by `search_papers` comes from one provider result,
with `authors` the flattened comma-join of that result's author-name list and
`published` that result's publication datetime formatted to day granularity
in ISO-8601 form. -/
theorem search_papers_record_invariants (provider : SearchSpec → ProviderResponse)
    (query : String) (max_results : Nat)
    (hok : (provider (mkSearch query max_results)).err = none) :
    ∀ rec ∈ (search_papers_body provider query max_results).2,
      ∃ src ∈ (provider (mkSearch query max_results)).ok,
        rec.authors = String.intercalate ", " (src.authors.map ArxivAuthor.name) ∧
        rec.published = strftimeYMD src.published := by
  intro rec hrec
  rw [search_papers_body_ok provider query max_results hok] at hrec
  rcases List.mem_map.mp hrec with ⟨src, hsrc, rfl⟩
  exact ⟨src, hsrc, rfl, rfl⟩

/-- Witness for C8: the record built from `sampleResult1`. -/
theorem search_papers_record_invariants_witness :
    ∃ src ∈ (providerOk (mkSearch "LLM Agents" 5)).ok,
      (toRecord sampleResult1).authors
        = String.intercalate ", " (src.authors.map ArxivAuthor.name) ∧
      (toRecord sampleResult1).published = strftimeYMD src.published :=
  search_papers_record_invariants providerOk "LLM Agents" 5 rfl
    (toRecord sampleResult1) (by decide)

/-! ### Lemmas about `main` -/

/-- Whether an event is an invocation of the search client. -/
def isSearchInvoked : UIEvent → Bool
  | UIEvent.searchInvoked _ _ => true
  | _ => false

/-- Whether an event is an invocation of the review generator. -/
def isReviewInvoked : UIEvent → Bool
  | UIEvent.reviewInvoked _ => true
  | _ => false

theorem filter_flatMapEq {α β : Type} (p : β → Bool) (f : α → List β) :
    ∀ l : List α, (l.flatMap f).filter p = l.flatMap fun a => (f a).filter p := by
  intro l
  induction l with
  | nil => rfl
  | cons a t ih => simp only [List.flatMap_cons, List.filter_append, ih]

theorem flatMap_const_nil {α β : Type} :
    ∀ l : List α, (l.flatMap fun _ => ([] : List β)) = [] := by
  intro l
  induction l with
  | nil => rfl
  | cons a t ih => simp [ih]

theorem enumFrom_flatMap_const {α β : Type} (c : List β) :
    ∀ (n : Nat) (l : List α),
      ((List.enumFrom n l).flatMap fun _ => c) = l.flatMap fun _ => c := by
  intro n l
  induction l generalizing n with
  | nil => rfl
  | cons a t ih => simp only [List.enumFrom, List.flatMap_cons]; rw [ih]

/-- The UI events emitted from inside `search_papers` are at most the one
`st.error` message. -/
theorem search_papers_events_shape (provider : SearchSpec → ProviderResponse)
    (cache : List CacheEntry) (now : Nat) (query : String) (max_results : Nat) :
    (search_papers provider cache now query max_results).events = [] ∨
    ∃ e, (search_papers provider cache now query max_results).events
        = [UIEvent.errorMsg ("Arxiv API Error: " ++ e)] := by
  unfold search_papers
  cases cacheLookup cache (query, max_results) now 3600 with
  | some v => exact Or.inl rfl
  | none =>
      rcases herr : (provider (mkSearch query max_results)).err with _ | e
      · apply Or.inl
        simp only [search_papers_body, herr]
      · exact Or.inr ⟨e, by simp only [search_papers_body, herr]⟩

theorem search_papers_events_filter_search (provider : SearchSpec → ProviderResponse)
    (cache : List CacheEntry) (now : Nat) (query : String) (max_results : Nat) :
    (search_papers provider cache now query max_results).events.filter isSearchInvoked
      = [] := by
  rcases search_papers_events_shape provider cache now query max_results with h | ⟨e, h⟩ <;>
    rw [h] <;> rfl

theorem search_papers_events_filter_review (provider : SearchSpec → ProviderResponse)
    (cache : List CacheEntry) (now : Nat) (query : String) (max_results : Nat) :
    (search_papers provider cache now query max_results).events.filter isReviewInvoked
      = [] := by
  rcases search_papers_events_shape provider cache now query max_results with h | ⟨e, h⟩ <;>
    rw [h] <;> rfl

theorem renderPaper_filter_search (svc : GenCall → Except String String)
    (i : Nat) (paper : PaperRecord) :
    (renderPaper svc i paper).filter isSearchInvoked = [] := rfl

theorem renderPaper_filter_review (svc : GenCall → Except String String)
    (i : Nat) (paper : PaperRecord) :
    (renderPaper svc i paper).filter isReviewInvoked
      = [UIEvent.reviewInvoked "expert", UIEvent.reviewInvoked "beginner"] := rfl

theorem headerEvents_filter_search : headerEvents.filter isSearchInvoked = [] := rfl

theorem headerEvents_filter_review : headerEvents.filter isReviewInvoked = [] := rfl

/-- The trace of a run with a credential and the button pressed. -/
theorem main_unfolded (env : Env) (hkey : ¬env.api_key = "")
    (hbtn : env.buttonPressed = true) :
    main env = headerEvents ++
      (UIEvent.searchInvoked env.query env.max_results ::
        (search_papers env.provider env.cache env.now env.query env.max_results).events ++
        (if (search_papers env.provider env.cache env.now env.query env.max_results).papers = []
         then [UIEvent.warning notFoundMsg]
         else UIEvent.successMsg
            (foundMsg (search_papers env.provider env.cache env.now env.query env.max_results).papers.length) ::
          (search_papers env.provider env.cache env.now env.query env.max_results).papers.enum.flatMap
            (fun ip => renderPaper env.gen ip.1 ip.2))) := by
  have hb : ¬(env.buttonPressed = false) := by
    rw [hbtn]; exact fun h => Bool.noConfusion h
  unfold main
  rw [if_neg hkey, if_neg hb]

theorem rendering_tail_filter_search (svc : GenCall → Except String String)
    (papers : List PaperRecord) :
    (if papers = [] then [UIEvent.warning notFoundMsg]
     else UIEvent.successMsg (foundMsg papers.length) ::
       papers.enum.flatMap (fun ip => renderPaper svc ip.1 ip.2)).filter isSearchInvoked
      = [] := by
  by_cases hp : papers = []
  · rw [if_pos hp]; rfl
  · rw [if_neg hp, List.filter_cons_of_neg (fun h => Bool.noConfusion h), filter_flatMapEq]
    simp only [renderPaper_filter_search]
    exact flatMap_const_nil _

theorem rendering_tail_filter_review (svc : GenCall → Except String String)
    (papers : List PaperRecord) (hp : ¬papers = []) :
    (if papers = [] then [UIEvent.warning notFoundMsg]
     else UIEvent.successMsg (foundMsg papers.length) ::
       papers.enum.flatMap (fun ip => renderPaper svc ip.1 ip.2)).filter isReviewInvoked
      = papers.flatMap
          (fun _ => [UIEvent.reviewInvoked "expert", UIEvent.reviewInvoked "beginner"]) := by
  rw [if_neg hp, List.filter_cons_of_neg (fun h => Bool.noConfusion h), filter_flatMapEq]
  simp only [renderPaper_filter_review]
  exact enumFrom_flatMap_const _ 0 papers

/-- C6: with a credential present and the button pressed, the search client
is invoked exactly once; if it returns no papers the run shows the not-found
warning and ends; otherwise the review generator is invoked exactly twice per
returned record — expert first, then beginner, strictly in record order — and
every record's title, author/date caption, collapsible raw abstract, and both
review panels appear in the rendered trace. -/
theorem main_rendering_pass (env : Env) (hkey : ¬env.api_key = "")
    (hbtn : env.buttonPressed = true) :
    (main env).filter isSearchInvoked
        = [UIEvent.searchInvoked env.query env.max_results] ∧
    ((search_papers env.provider env.cache env.now env.query env.max_results).papers = [] →
      main env = headerEvents ++
        (UIEvent.searchInvoked env.query env.max_results ::
          (search_papers env.provider env.cache env.now env.query env.max_results).events ++
          [UIEvent.warning notFoundMsg])) ∧
    ((search_papers env.provider env.cache env.now env.query env.max_results).papers ≠ [] →
      (main env).filter isReviewInvoked
          = (search_papers env.provider env.cache env.now env.query env.max_results).papers.flatMap
              (fun _ => [UIEvent.reviewInvoked "expert", UIEvent.reviewInvoked "beginner"]) ∧
      ∀ ip ∈ (search_papers env.provider env.cache env.now env.query env.max_results).papers.enum,
        UIEvent.markdown ("### " ++ toString (ip.1 + 1) ++ ". " ++ ip.2.title) ∈ main env ∧
        UIEvent.caption ("Authors: " ++ ip.2.authors ++ " | Published: " ++ ip.2.published)
            ∈ main env ∧
        UIEvent.expander "Show Original Abstract" ip.2.summary ∈ main env ∧
        UIEvent.infoPanel (reviewText env.gen ip.2.summary "expert") ∈ main env ∧
        UIEvent.successMsg (reviewText env.gen ip.2.summary "beginner") ∈ main env) := by
  have hmain := main_unfolded env hkey hbtn
  refine ⟨?_, ?_, ?_⟩
  · rw [hmain, List.filter_append, headerEvents_filter_search, List.nil_append,
        List.filter_append, List.filter_cons_of_pos rfl,
        search_papers_events_filter_search, rendering_tail_filter_search,
        List.append_nil]
  · intro hp
    rw [hmain, if_pos hp]
  · intro hp
    constructor
    · rw [hmain, List.filter_append, headerEvents_filter_review, List.nil_append,
          List.filter_append, List.filter_cons_of_neg (fun h => Bool.noConfusion h),
          search_papers_events_filter_review, List.nil_append,
          rendering_tail_filter_review env.gen _ hp]
    · intro ip hip
      have hin : ∀ ev ∈ renderPaper env.gen ip.1 ip.2, ev ∈ main env := by
        intro ev hev
        rw [hmain, if_neg hp]
        refine List.mem_append_right _ (List.mem_append_right _ ?_)
        exact List.mem_cons_of_mem _ (List.mem_flatMap.mpr ⟨ip, hip, hev⟩)
      exact ⟨hin _ (by simp [renderPaper]), hin _ (by simp [renderPaper]),
             hin _ (by simp [renderPaper]), hin _ (by simp [renderPaper]),
             hin _ (by simp [renderPaper])⟩

/-- A concrete run environment: valid credential, query `"LLM Agents"`,
limit 3, button pressed, fresh memo table. -/
def envOk : Env :=
  ⟨"AIzaSyDummy", "LLM Agents", 3, true, [], 0, providerOk, svcOk⟩

/-- Witness for C6 at `envOk`. -/
theorem main_rendering_pass_witness :
    (main envOk).filter isSearchInvoked
        = [UIEvent.searchInvoked envOk.query envOk.max_results] ∧
    ((search_papers envOk.provider envOk.cache envOk.now envOk.query envOk.max_results).papers = [] →
      main envOk = headerEvents ++
        (UIEvent.searchInvoked envOk.query envOk.max_results ::
          (search_papers envOk.provider envOk.cache envOk.now envOk.query envOk.max_results).events ++
          [UIEvent.warning notFoundMsg])) ∧
    ((search_papers envOk.provider envOk.cache envOk.now envOk.query envOk.max_results).papers ≠ [] →
      (main envOk).filter isReviewInvoked
          = (search_papers envOk.provider envOk.cache envOk.now envOk.query envOk.max_results).papers.flatMap
              (fun _ => [UIEvent.reviewInvoked "expert", UIEvent.reviewInvoked "beginner"]) ∧
      ∀ ip ∈ (search_papers envOk.provider envOk.cache envOk.now envOk.query envOk.max_results).papers.enum,
        UIEvent.markdown ("### " ++ toString (ip.1 + 1) ++ ". " ++ ip.2.title) ∈ main envOk ∧
        UIEvent.caption ("Authors: " ++ ip.2.authors ++ " | Published: " ++ ip.2.published)
            ∈ main envOk ∧
        UIEvent.expander "Show Original Abstract" ip.2.summary ∈ main envOk ∧
        UIEvent.infoPanel (reviewText envOk.gen ip.2.summary "expert") ∈ main envOk ∧
        UIEvent.successMsg (reviewText envOk.gen ip.2.summary "beginner") ∈ main envOk) :=
  main_rendering_pass envOk (by decide) rfl

/-- C7: while the credential string is empty the run stops at the
instructional warning: the search client is never invoked, and no downstream
action (search or review) happens. -/
theorem main_empty_credential (env : Env) (hkey : env.api_key = "") :
    main env = headerEvents ++ [UIEvent.warning apiKeyPrompt] ∧
    (main env).filter isSearchInvoked = [] ∧
    (main env).filter isReviewInvoked = [] := by
  have hmain : main env = headerEvents ++ [UIEvent.warning apiKeyPrompt] := by
    unfold main
    rw [if_pos hkey]
  refine ⟨hmain, ?_, ?_⟩ <;> rw [hmain] <;> rfl

/-- A concrete run environment with an empty credential. -/
def envNoKey : Env :=
  ⟨"", "LLM Agents", 3, true, [], 0, providerOk, svcOk⟩

/-- Witness for C7 at `envNoKey`. -/
theorem main_empty_credential_witness :
    main envNoKey = headerEvents ++ [UIEvent.warning apiKeyPrompt] ∧
    (main envNoKey).filter isSearchInvoked = [] ∧
    (main envNoKey).filter isReviewInvoked = [] :=
  main_empty_credential envNoKey rfl

end ArxivApp
